import Mathlib

/-!
Verification of the daemon lifecycle and task-orchestration layer of
`crates/eww/src/server.rs`: the filesystem watcher's extension filter and
debounce gate, the daemonizer (`do_detach`), the signal handler, the
exit-forwarder task, the supervisor join, and the serialized UI command loop.

Each Rust function in scope is shallowly embedded as an executable Lean
definition; effects (logging, channel sends, process exit) are reified as
actions in a trace, and OS calls (`fork`, `open`, `isatty`, `dup2`) are
parameters of an environment record so that every control path of the Rust
code is represented.
-/

namespace Eww

/-! ### Paths and the extension filter (server.rs lines 120-133)

The watcher callback computes, for each event, whether any changed path has
extension `yuck` or `scss` (`relevant_files_changed`), via Rust's
`Path::extension().unwrap_or_default()`.  `Path::extension` returns the
portion of the file name after the last dot, and `none` when the file name
has no dot or starts with its only dot. -/

/-- On the reversed character list of a path: the characters of its last
component (still reversed), i.e. everything up to the first `/`. -/
def revLastComponent : List Char → List Char
  | [] => []
  | c :: cs => if c = '/' then [] else c :: revLastComponent cs

def fileNameOf (p : String) : String :=
  String.mk (revLastComponent p.toList.reverse).reverse

/-- On the reversed character list of a file name: split at the first dot
(the last dot of the name), returning the characters after the dot (still
reversed) and the characters before it (still reversed); `none` when the
name has no dot. -/
def revExtSplit : List Char → Option (List Char × List Char)
  | [] => none
  | c :: cs =>
    if c = '.' then some ([], cs)
    else
      match revExtSplit cs with
      | some (e, r) => some (c :: e, r)
      | none => none

/-- Embedding of Rust `Path::extension` on the path's file name. -/
def extensionOf (p : String) : Option String :=
  match revExtSplit (fileNameOf p).toList.reverse with
  | some (extRev, stemRev) =>
    if stemRev.isEmpty then none else some (String.mk extRev.reverse)
  | none => none

/-- `ext == "yuck" || ext == "scss"` with `ext = path.extension().unwrap_or_default()`. -/
def isRelevantPath (p : String) : Bool :=
  let ext := (extensionOf p).getD ""
  ext == "yuck" || ext == "scss"

/-- `event.paths.iter().any(...)` of the watcher callback. -/
def relevant_files_changed (paths : List String) : Bool :=
  paths.any isRelevantPath

/-- Observable actions of the watcher callback closure. -/
inductive CbAction where
  | forwardTrigger
  | logWarn (msg : String)
  | logError (msg : String)
  deriving DecidableEq, Repr

/-- Embedding of the `Watcher::new_immediate` callback (server.rs 120-133).
`res` is the notify result for one event (`ok` carries the changed paths);
`txOpen` says whether the internal trigger channel still has its receiver.
As written in the source, the callback forwards a trigger to the debounce
loop only when `!relevant_files_changed`; a relevant-only event produces no
action at all, and a callback-level error is logged and nothing else. -/
def watchCallback (res : Except String (List String)) (txOpen : Bool) : List CbAction :=
  match res with
  | Except.ok paths =>
    if !(relevant_files_changed paths) then
      if txOpen then [CbAction.forwardTrigger]
      else [CbAction.logWarn "Error forwarding file update event"]
    else []
  | Except.error e => [CbAction.logError ("Encountered Error While Watching Files: " ++ e)]

/-! ### The debounce gate and the watcher loop (server.rs 136-161)

`debounce_done` is an `AtomicBool`, initially `true`.  On each trigger the
loop does `debounce_done.swap(false, SeqCst)`; when the swap returns `true`
(the gate was open) it spawns a timer that stores `true` back after 500ms
and sends `ReloadConfigAndCss` into the command queue with `?`, so a send
failure makes `run_filewatch` return an error.  Time is modelled as a `Nat`
timestamp in milliseconds; the one pending reopen timer is carried in the
state and applied lazily at the next trigger's timestamp. -/

def COOLDOWN_MS : Nat := 500

structure GateState where
  debounce_done : Bool
  reopenAt : Option Nat
  deriving DecidableEq, Repr

/-- The gate as `run_filewatch` creates it: open, no timer pending. -/
def gateInit : GateState := { debounce_done := true, reopenAt := none }

/-- Fire the pending reopen timer when its deadline has passed. -/
def applyTimer (now : Nat) (s : GateState) : GateState :=
  match s.reopenAt with
  | some d => if d ≤ now then { debounce_done := true, reopenAt := none } else s
  | none => s

/-- Result of one iteration of the `loop_select_exiting` body on a trigger. -/
inductive StepResult where
  | next (s : GateState) (enqueued : Nat)
  | halted (err : String)
  deriving DecidableEq, Repr

def SEND_ERR : String := "sending ReloadConfigAndCss on a closed channel"

/-- One iteration of the watcher loop at timestamp `now` (server.rs 139-158):
swap the gate flag; if this call closed the gate, schedule the 500ms reopen
timer and send one `ReloadConfigAndCss` (`enqueued = 1`), where a failed
send (`sendOk = false`) propagates via `?` and halts the task; if the gate
was already closed, do nothing (`enqueued = 0`). -/
def filewatchStep (sendOk : Bool) (now : Nat) (s : GateState) : StepResult :=
  let s := applyTimer now s
  if s.debounce_done then
    if sendOk then
      StepResult.next { debounce_done := false, reopenAt := some (now + COOLDOWN_MS) } 1
    else StepResult.halted SEND_ERR
  else StepResult.next s 0

/-- Run the watcher loop (with the send succeeding) over a list of trigger
timestamps, returning the final gate state and the total number of
`ReloadConfigAndCss` commands enqueued. -/
def runTriggers : List Nat → GateState → GateState × Nat
  | [], s => (s, 0)
  | t :: ts, s =>
    match filewatchStep true t s with
    | StepResult.next s2 k =>
      let r := runTriggers ts s2
      (r.1, k + r.2)
    | StepResult.halted _ => (s, 0)

/-- Run the watcher loop as `run_filewatch` does, with the queue-send outcome
a parameter: the task returns `ok` when the trigger channel closes (the
`else => break` arm) and an error when a send fails. -/
def runLoop (sendOk : Bool) : List Nat → GateState → Except String Unit
  | [], _ => Except.ok ()
  | t :: ts, s =>
    match filewatchStep sendOk t s with
    | StepResult.next s2 _ => runLoop sendOk ts s2
    | StepResult.halted e => Except.error e

/-- While the gate is closed with reopen deadline `d`, triggers strictly
before `d` neither enqueue anything nor change the state. -/
theorem runTriggers_closed (d : Nat) (ts : List Nat)
    (h : ∀ t ∈ ts, t < d) :
    runTriggers ts { debounce_done := false, reopenAt := some d } =
      ({ debounce_done := false, reopenAt := some d }, 0) := by
  induction ts with
  | nil => rfl
  | cons t ts ih =>
    have ht : t < d := h t (List.mem_cons_self t ts)
    have hts : ∀ u ∈ ts, u < d := fun u hu => h u (List.mem_cons_of_mem t hu)
    simp only [runTriggers, filewatchStep, applyTimer, Nat.not_le.mpr ht, if_neg,
      Bool.false_eq_true, ite_false, ih hts]

/-- With the send succeeding, one loop iteration never halts: it either
closes the gate and enqueues one command, or leaves the closed gate alone. -/
theorem filewatchStep_true (t : Nat) (s : GateState) :
    filewatchStep true t s =
      (if (applyTimer t s).debounce_done then
        StepResult.next { debounce_done := false, reopenAt := some (t + COOLDOWN_MS) } 1
      else StepResult.next (applyTimer t s) 0) := by
  simp [filewatchStep]

/-- C1: the watcher callback, as written, discards an event whose changed
path has a relevant extension (`panel.yuck`) without any side effect, and
forwards a trigger toward the debounce gate and the reload send exactly for
an event with no relevant extension (`notes.txt`) — the opposite of the
claim.  This theorem evaluates the embedded callback at both inputs. -/
theorem filewatch_filter_inverted :
    relevant_files_changed ["/etc/eww/panel.yuck"] = true ∧
    watchCallback (Except.ok ["/etc/eww/panel.yuck"]) true = [] ∧
    relevant_files_changed ["/etc/eww/notes.txt"] = false ∧
    watchCallback (Except.ok ["/etc/eww/notes.txt"]) true = [CbAction.forwardTrigger] := by
  decide

/-- C2: for a burst of `N ≥ 1` triggers (`t0 :: rest`) all inside one
cooldown window, starting with the gate open, only the first trigger's
`swap` succeeds: exactly one `ReloadConfigAndCss` is enqueued in total, and
the gate ends closed with the reopen timer set by the winning trigger. -/
theorem debounce_single_winner (t0 : Nat) (rest : List Nat)
    (h : ∀ t ∈ rest, t < t0 + COOLDOWN_MS) :
    runTriggers (t0 :: rest) gateInit =
      ({ debounce_done := false, reopenAt := some (t0 + COOLDOWN_MS) }, 1) := by
  have hclosed := runTriggers_closed (t0 + COOLDOWN_MS) rest h
  simp [runTriggers, filewatchStep, applyTimer, gateInit, hclosed]

/-- C2 witness: a burst of four triggers at 0, 100, 200 and 499 ms enqueues
exactly one reload command. -/
theorem debounce_single_winner_witness :
    runTriggers (0 :: [100, 200, 499]) gateInit =
      ({ debounce_done := false, reopenAt := some (0 + COOLDOWN_MS) }, 1) :=
  debounce_single_winner 0 [100, 200, 499] (by decide)

/-- From a closed gate with reopen deadline `d`, further triggers before `d`
are coalesced, and the first trigger at or after `d` finds the gate reopened
by the timer and enqueues exactly one new command. -/
theorem runTriggers_closed_then (d : Nat) (rest : List Nat)
    (h : ∀ t ∈ rest, t < d) (t1 : Nat) (h1 : d ≤ t1) :
    runTriggers (rest ++ [t1]) { debounce_done := false, reopenAt := some d } =
      ({ debounce_done := false, reopenAt := some (t1 + COOLDOWN_MS) }, 1) := by
  induction rest with
  | nil => simp [runTriggers, filewatchStep, applyTimer, h1]
  | cons t ts ih =>
    have ht : t < d := h t (List.mem_cons_self t ts)
    have hts := ih (fun u hu => h u (List.mem_cons_of_mem t hu))
    simp only [List.cons_append, runTriggers, filewatchStep, applyTimer,
      if_neg (Nat.not_le.mpr ht)]
    simp [hts]

/-- C3: after a burst starting at `t0` closes the gate (any further triggers
`rest` within the window change nothing), the timer reopens the gate at
`t0 + 500`, so the next trigger at `t1 ≥ t0 + 500` enqueues exactly one new
reload command: two commands in total for the whole run. -/
theorem debounce_reopens (t0 t1 : Nat) (rest : List Nat)
    (hrest : ∀ t ∈ rest, t < t0 + COOLDOWN_MS)
    (h1 : t0 + COOLDOWN_MS ≤ t1) :
    runTriggers (t0 :: (rest ++ [t1])) gateInit =
      ({ debounce_done := false, reopenAt := some (t1 + COOLDOWN_MS) }, 2) := by
  have h2 := runTriggers_closed_then (t0 + COOLDOWN_MS) rest hrest t1 h1
  simp [runTriggers, filewatchStep, applyTimer, gateInit, h2]

/-- C3 witness: triggers at 0, 100 and 499 ms enqueue one command; the gate
reopens at 500 ms, and the trigger at 600 ms enqueues exactly one more. -/
theorem debounce_reopens_witness :
    runTriggers (0 :: ([100, 499] ++ [600])) gateInit =
      ({ debounce_done := false, reopenAt := some (600 + COOLDOWN_MS) }, 2) :=
  debounce_reopens 0 600 [100, 499] (by decide) (by decide)

/-! ### The daemonizer `do_detach` (server.rs 164-189)

The OS calls are parameters of an environment record; the redirections
performed by `dup2` are reified as actions.  The source propagates the
`fork`, `isatty` and `dup2` failures with `?` (an error value returned to
the caller), but unwraps the log-file open with `.expect(...)`, which
aborts via panic instead of returning an error. -/

inductive ForkRes where
  | parent
  | child
  deriving DecidableEq, Repr

structure DetachEnv where
  forkRes : Except String ForkRes
  openRes : Except String Nat
  isattyStdout : Except String Bool
  isattyStderr : Except String Bool
  dup2Stdout : Except String Unit
  dup2Stderr : Except String Unit
  deriving Repr

inductive DetachAct where
  | redirectStdout (fd : Nat)
  | redirectStderr (fd : Nat)
  deriving DecidableEq, Repr

inductive DetachResult where
  | parentExit (code : Nat)
  | done (acts : List DetachAct)
  | errorReturn (e : String) (acts : List DetachAct)
  | panicked (msg : String)
  deriving DecidableEq, Repr

def OPEN_PANIC_MSG : String := "Error opening log file, for writing"

/-- Embedding of `do_detach` (server.rs 165-189): fork (parent exits 0,
errors propagate), open the log file (`.expect` panics on failure), then
for stdout and stderr independently redirect to the log fd exactly when
`isatty` reports a terminal, propagating `isatty`/`dup2` errors. -/
def do_detach (env : DetachEnv) : DetachResult :=
  match env.forkRes with
  | Except.error e => DetachResult.errorReturn e []
  | Except.ok ForkRes.parent => DetachResult.parentExit 0
  | Except.ok ForkRes.child =>
    match env.openRes with
    | Except.error _ => DetachResult.panicked OPEN_PANIC_MSG
    | Except.ok fd =>
      match env.isattyStdout with
      | Except.error e => DetachResult.errorReturn e []
      | Except.ok tty1 =>
        let step1 : Except String (List DetachAct) :=
          if tty1 then
            match env.dup2Stdout with
            | Except.error e => Except.error e
            | Except.ok _ => Except.ok [DetachAct.redirectStdout fd]
          else Except.ok []
        match step1 with
        | Except.error e => DetachResult.errorReturn e []
        | Except.ok acts1 =>
          match env.isattyStderr with
          | Except.error e => DetachResult.errorReturn e acts1
          | Except.ok tty2 =>
            if tty2 then
              match env.dup2Stderr with
              | Except.error e => DetachResult.errorReturn e acts1
              | Except.ok _ => DetachResult.done (acts1 ++ [DetachAct.redirectStderr fd])
            else DetachResult.done acts1

/-- `true` exactly when the detach outcome is an error value returned to the
caller. -/
def isErrorReturn : DetachResult → Bool
  | DetachResult.errorReturn _ _ => true
  | _ => false

/-- An environment in which everything succeeds except opening the log file. -/
def envOpenFail : DetachEnv :=
  { forkRes := Except.ok ForkRes.child, openRes := Except.error "EACCES",
    isattyStdout := Except.ok true, isattyStderr := Except.ok true,
    dup2Stdout := Except.ok (), dup2Stderr := Except.ok () }

/-- C4 counterexample: when opening the log file fails, `do_detach` aborts
via panic (`.expect`), not by returning an error value to the caller, so
not every daemonization failure is surfaced as a returned error. -/
theorem detach_open_failure_panics :
    do_detach envOpenFail = DetachResult.panicked OPEN_PANIC_MSG ∧
    isErrorReturn (do_detach envOpenFail) = false := by
  decide

/-- C4 (amended): fork failure and descriptor-duplication failure (for
either descriptor) are surfaced as error values returned to the caller;
log-file open failure is also fatal but aborts via panic rather than a
returned error.  In every such case daemonization does not complete. -/
theorem detach_failures_fatal (env : DetachEnv) (e m : String) (fd : Nat) :
    (env.forkRes = Except.error e → do_detach env = DetachResult.errorReturn e []) ∧
    (env.forkRes = Except.ok ForkRes.child → env.openRes = Except.error m →
      do_detach env = DetachResult.panicked OPEN_PANIC_MSG) ∧
    (env.forkRes = Except.ok ForkRes.child → env.openRes = Except.ok fd →
      env.isattyStdout = Except.ok true → env.dup2Stdout = Except.error e →
      do_detach env = DetachResult.errorReturn e []) ∧
    (env.forkRes = Except.ok ForkRes.child → env.openRes = Except.ok fd →
      env.isattyStdout = Except.ok false → env.isattyStderr = Except.ok true →
      env.dup2Stderr = Except.error e →
      do_detach env = DetachResult.errorReturn e []) := by
  refine ⟨fun h1 => ?_, fun h1 h2 => ?_, fun h1 h2 h3 h4 => ?_, fun h1 h2 h3 h4 h5 => ?_⟩
  · simp [do_detach, h1]
  · simp [do_detach, h1, h2]
  · simp [do_detach, h1, h2, h3, h4]
  · simp [do_detach, h1, h2, h3, h4, h5]

/-- An environment in which the fork itself fails. -/
def envForkFail : DetachEnv := { envOpenFail with forkRes := Except.error "EAGAIN" }

/-- An environment in which everything succeeds except duplicating stdout. -/
def envDupFail : DetachEnv :=
  { envOpenFail with
    openRes := Except.ok 3
    dup2Stdout := Except.error "EBADF" }

/-- C4 witness: at concrete environments, a failed fork returns its error, a
failed stdout `dup2` returns its error, and a failed log-file open panics. -/
theorem detach_failures_fatal_witness :
    do_detach envForkFail = DetachResult.errorReturn "EAGAIN" [] ∧
    do_detach envOpenFail = DetachResult.panicked OPEN_PANIC_MSG ∧
    do_detach envDupFail = DetachResult.errorReturn "EBADF" [] :=
  ⟨(detach_failures_fatal envForkFail "EAGAIN" "" 0).1 rfl,
   (detach_failures_fatal envOpenFail "" "EACCES" 0).2.1 rfl rfl,
   (detach_failures_fatal envDupFail "EBADF" "" 3).2.2.1 rfl rfl rfl rfl⟩

/-- C5: on the all-successful path, each of stdout and stderr is redirected
to the log file descriptor exactly when its `isatty` check reports a
terminal, independently of the other; a descriptor already attached to a
non-terminal target is left untouched. -/
theorem detach_redirects_iff_tty (env : DetachEnv) (fd : Nat) (t1 t2 : Bool)
    (hf : env.forkRes = Except.ok ForkRes.child) (ho : env.openRes = Except.ok fd)
    (h1 : env.isattyStdout = Except.ok t1) (h2 : env.isattyStderr = Except.ok t2)
    (hd1 : env.dup2Stdout = Except.ok ()) (hd2 : env.dup2Stderr = Except.ok ()) :
    do_detach env = DetachResult.done
      ((if t1 then [DetachAct.redirectStdout fd] else []) ++
        (if t2 then [DetachAct.redirectStderr fd] else [])) := by
  cases t1 <;> cases t2 <;> simp [do_detach, hf, ho, h1, h2, hd1, hd2]

/-- An environment where stdout is a terminal and stderr is already
redirected to a non-terminal target. -/
def envTtyStdoutOnly : DetachEnv :=
  { forkRes := Except.ok ForkRes.child
    openRes := Except.ok 3
    isattyStdout := Except.ok true
    isattyStderr := Except.ok false
    dup2Stdout := Except.ok ()
    dup2Stderr := Except.ok () }

/-- C5 witness: with stdout on a terminal and stderr already redirected,
only stdout is redirected to the log descriptor. -/
theorem detach_redirects_iff_tty_witness :
    do_detach envTtyStdoutOnly =
      DetachResult.done
        ((if true then [DetachAct.redirectStdout 3] else []) ++
          (if false then [DetachAct.redirectStderr 3] else [])) :=
  detach_redirects_iff_tty envTtyStdoutOnly 3 true false rfl rfl rfl rfl rfl rfl

/-! ### Commands, the exit forwarder, the supervisor and the signal handler -/

/-- `app::DaemonCommand`, with the variants this layer produces; the
response sender inside `ReloadConfigAndCss` is modelled as a channel id. -/
inductive DaemonCommand where
  | ReloadConfigAndCss (respChan : Nat)
  | KillServer
  | other (tag : Nat)
  deriving DecidableEq, Repr

/-- Observable steps of the exit-forwarder task. -/
inductive FwdEvent where
  | awaitExit
  | logInfo (msg : String)
  | logError (msg : String)
  | sendCmd (c : DaemonCommand)
  deriving DecidableEq, Repr

/-- A send on the command queue fails exactly when the receiver is closed. -/
def queueSend (receiverClosed : Bool) (_cmd : DaemonCommand) : Except String Unit :=
  if receiverClosed then Except.error "channel closed" else Except.ok ()

/-- Embedding of the exit-forwarder task body (server.rs 95-104): await the
exit event, log, then send `KillServer` once, discarding the send result
with `let _ = ...` — the trace it produces does not depend on whether the
receiver was closed, and the task body ends after this one attempt. -/
def forward_exit_to_app (receiverClosed : Bool) : List FwdEvent :=
  let _ := queueSend receiverClosed DaemonCommand.KillServer
  [FwdEvent.awaitExit, FwdEvent.logInfo "Forward task received exit event",
    FwdEvent.sendCmd DaemonCommand.KillServer]

/-- Number of queue-send attempts in a forwarder trace. -/
def countSends : List FwdEvent → Nat
  | [] => 0
  | FwdEvent.sendCmd _ :: rest => 1 + countSends rest
  | _ :: rest => countSends rest

/-- Whether a forwarder trace contains any error-log step. -/
def hasLogError : List FwdEvent → Bool
  | [] => false
  | FwdEvent.logError _ :: _ => true
  | _ :: rest => hasLogError rest

/-- C6 counterexample: with the queue receiver closed, the send of
`KillServer` fails, yet the forwarder's trace contains no error log — the
failure is discarded by `let _ = ...`, not logged; the trace is identical
to the one where the send succeeds. -/
theorem forwarder_failure_not_logged :
    (queueSend true DaemonCommand.KillServer).isOk = false ∧
    hasLogError (forward_exit_to_app true) = false ∧
    forward_exit_to_app true = forward_exit_to_app false := by
  decide

/-- C6 (amended): the forwarder suspends until the exit signal fires (its
first step is the await), then attempts exactly one `KillServer` send and
terminates; a failed send (receiver closed) is silently discarded — neither
logged nor retried nor escalated, the trace being independent of the send
outcome. -/
theorem forwarder_sends_once (receiverClosed : Bool) :
    (forward_exit_to_app receiverClosed).head? = some FwdEvent.awaitExit ∧
    countSends (forward_exit_to_app receiverClosed) = 1 ∧
    (forward_exit_to_app receiverClosed).getLast? =
      some (FwdEvent.sendCmd DaemonCommand.KillServer) ∧
    hasLogError (forward_exit_to_app receiverClosed) = false ∧
    forward_exit_to_app receiverClosed = forward_exit_to_app false := by
  cases receiverClosed <;> decide

/-! ### The supervisor join (server.rs 80-113)

Each `tokio::spawn` returns a join handle whose outcome is either the
completed task value or a join-level failure (the task panicked or was
aborted).  `tokio::try_join!` on the three handles yields the first
join-level failure, or the triple of completed values; the body of
`init_async_part` logs exactly when that result is an `Err` — that is, a
task value of `Err(..)` inside a completed join is not an error here. -/

inductive JoinOutcome (α : Type) where
  | completed (val : α)
  | joinFailed (e : String)
  deriving DecidableEq, Repr

/-- `tokio::try_join!` over the three join handles: the first join failure,
in polling order, or the triple of completed values. -/
def try_join3 {α β γ : Type} (a : JoinOutcome α) (b : JoinOutcome β)
    (c : JoinOutcome γ) : Except String (α × β × γ) :=
  match a with
  | JoinOutcome.joinFailed e => Except.error e
  | JoinOutcome.completed x =>
    match b with
    | JoinOutcome.joinFailed e => Except.error e
    | JoinOutcome.completed y =>
      match c with
      | JoinOutcome.joinFailed e => Except.error e
      | JoinOutcome.completed z => Except.ok (x, y, z)

/-- Embedding of the tail of `init_async_part` (server.rs 106-110): join the
filewatch, IPC-server and exit-forwarder handles and log the error exactly
when the join itself failed.  The task results `fw` and `ipc` are
`Result<(), _>` values; the forwarder returns unit. -/
def superviseLogs (fw ipc : JoinOutcome (Except String Unit))
    (fwd : JoinOutcome Unit) : List String :=
  match try_join3 fw ipc fwd with
  | Except.error e => ["Eww exiting with error: " ++ e]
  | Except.ok _ => []

/-- `true` when a joined task ran to completion but returned an error value. -/
def taskErred : JoinOutcome (Except String Unit) → Bool
  | JoinOutcome.completed (Except.error _) => true
  | _ => false

/-- C7 counterexample: the filewatch task terminates with an error value
(its result is `Err`), the other two tasks complete normally, and the
supervisor logs nothing — `try_join!` over join handles only fails on a
join-level failure (panic/abort), so a task terminating with an error is
not logged. -/
theorem supervisor_misses_task_error :
    taskErred (JoinOutcome.completed (Except.error SEND_ERR)) = true ∧
    superviseLogs (JoinOutcome.completed (Except.error SEND_ERR))
      (JoinOutcome.completed (Except.ok ())) (JoinOutcome.completed ()) = [] := by
  decide

/-- C7 (amended): the supervisor joins all three tasks; a join-level failure
(a task that panicked or was aborted) of any of the three handles is logged,
and the logged error is the first failed handle's in the join's polling
order — a failed filewatch handle is logged whatever the other two handles
did, a failed IPC handle is logged whenever the filewatch handle completed,
and a failed forwarder handle is logged whenever both others completed.
When all three handles complete nothing is logged, even if a completed
task's value is an error; no task is retried, respawned or forcibly
canceled (the join consumes each handle exactly once and produces only a
log). -/
theorem supervisor_logs_join_failures (fw ipc : JoinOutcome (Except String Unit))
    (fwd : JoinOutcome Unit) (e : String) :
    (fw = JoinOutcome.joinFailed e →
      superviseLogs fw ipc fwd = ["Eww exiting with error: " ++ e]) ∧
    (∀ rfw, fw = JoinOutcome.completed rfw → ipc = JoinOutcome.joinFailed e →
      superviseLogs fw ipc fwd = ["Eww exiting with error: " ++ e]) ∧
    (∀ rfw ripc, fw = JoinOutcome.completed rfw → ipc = JoinOutcome.completed ripc →
      fwd = JoinOutcome.joinFailed e →
      superviseLogs fw ipc fwd = ["Eww exiting with error: " ++ e]) ∧
    (∀ rfw ripc, fw = JoinOutcome.completed rfw → ipc = JoinOutcome.completed ripc →
      fwd = JoinOutcome.completed () → superviseLogs fw ipc fwd = []) := by
  refine ⟨fun h1 => ?_, fun rfw h1 h2 => ?_, fun rfw ripc h1 h2 h3 => ?_,
    fun rfw ripc h1 h2 h3 => ?_⟩
  · simp [superviseLogs, try_join3, h1]
  · simp [superviseLogs, try_join3, h1, h2]
  · simp [superviseLogs, try_join3, h1, h2, h3]
  · simp [superviseLogs, try_join3, h1, h2, h3]

/-- C7 witness: a panicked filewatch handle is logged first even when the
forwarder handle also failed; a panicked IPC handle and a panicked
forwarder handle are each logged when the handles before them completed;
three completed tasks (one with an error value) produce no log. -/
theorem supervisor_logs_join_failures_witness :
    superviseLogs (JoinOutcome.joinFailed "fw panicked")
      (JoinOutcome.completed (Except.ok ())) (JoinOutcome.joinFailed "fwd panicked") =
      ["Eww exiting with error: " ++ "fw panicked"] ∧
    superviseLogs (JoinOutcome.completed (Except.ok ()))
      (JoinOutcome.joinFailed "ipc panicked") (JoinOutcome.completed ()) =
      ["Eww exiting with error: " ++ "ipc panicked"] ∧
    superviseLogs (JoinOutcome.completed (Except.ok ()))
      (JoinOutcome.completed (Except.ok ())) (JoinOutcome.joinFailed "fwd panicked") =
      ["Eww exiting with error: " ++ "fwd panicked"] ∧
    superviseLogs (JoinOutcome.completed (Except.error "watch failed"))
      (JoinOutcome.completed (Except.ok ())) (JoinOutcome.completed ()) = [] :=
  ⟨(supervisor_logs_join_failures (JoinOutcome.joinFailed "fw panicked")
      (JoinOutcome.completed (Except.ok ())) (JoinOutcome.joinFailed "fwd panicked")
      "fw panicked").1 rfl,
   (supervisor_logs_join_failures (JoinOutcome.completed (Except.ok ()))
      (JoinOutcome.joinFailed "ipc panicked") (JoinOutcome.completed ())
      "ipc panicked").2.1 (Except.ok ()) rfl rfl,
   (supervisor_logs_join_failures (JoinOutcome.completed (Except.ok ()))
      (JoinOutcome.completed (Except.ok ())) (JoinOutcome.joinFailed "fwd panicked")
      "fwd panicked").2.2.1 (Except.ok ()) (Except.ok ()) rfl rfl rfl,
   (supervisor_logs_join_failures (JoinOutcome.completed (Except.error "watch failed"))
      (JoinOutcome.completed (Except.ok ())) (JoinOutcome.completed ()) "").2.2.2
      (Except.error "watch failed") (Except.ok ()) rfl rfl rfl⟩

/-! ### The signal handler (server.rs 23-29) -/

inductive OsSignal where
  | sigInt
  | sigTerm
  | otherSig (n : Nat)
  deriving DecidableEq, Repr

/-- The signals `simple_signal::set_handler` is registered for. -/
def handledSignals : List OsSignal := [OsSignal.sigInt, OsSignal.sigTerm]

/-- Observable steps of the registered signal handler. -/
inductive HandlerStep where
  | logInfo (msg : String)
  | callSendExit
  | logError (msg : String)
  | exitProcess (code : Nat)
  deriving DecidableEq, Repr

/-- Embedding of the handler closure (server.rs 23-29): log, invoke the
exit-signal broadcast (`application_lifecycle::send_exit`, whose outcome is
the parameter `sendExitOk`), and on failure log the error and call
`std::process::exit(1)`. -/
def signalHandler (sendExitOk : Bool) : List HandlerStep :=
  [HandlerStep.logInfo "Shutting down eww daemon...", HandlerStep.callSendExit] ++
    (if sendExitOk then []
     else [HandlerStep.logError "Failed to send application shutdown event to workers",
       HandlerStep.exitProcess 1])

/-- `true` for a process-exit step. -/
def isExitStep : HandlerStep → Bool
  | HandlerStep.exitProcess _ => true
  | _ => false

/-- C8: SIGINT and SIGTERM are both registered to the handler; the handler
always invokes the exit-signal broadcast, and when delivering the shutdown
event fails it terminates the process immediately with exit status 1 (a
non-zero status) as its final step, while on success it never exits the
process. -/
theorem sigint_sigterm_shutdown :
    OsSignal.sigInt ∈ handledSignals ∧
    OsSignal.sigTerm ∈ handledSignals ∧
    HandlerStep.callSendExit ∈ signalHandler true ∧
    HandlerStep.callSendExit ∈ signalHandler false ∧
    (signalHandler false).getLast? = some (HandlerStep.exitProcess 1) ∧
    (1 : Nat) ≠ 0 ∧
    (signalHandler true).all (fun s => !(isExitStep s)) = true := by
  decide

/-! ### The UI command loop (server.rs 68-72)

`while let Some(event) = ui_recv.recv().await { app.handle_command(event) }`
runs on the single-threaded glib main context: each iteration receives one
command and calls the handler synchronously to completion before the loop
polls the receiver again.  The loop is embedded two ways: as the fold it
computes over application state, and as the event trace it produces, where
iteration `k` contributes receive/begin/end events for command `k`. -/

/-- The UI loop as a fold: handling of command `k` completes (the state is
fully updated) before command `k+1` is taken from the queue. -/
def uiLoop {σ : Type} (handle : σ → DaemonCommand → σ) : List DaemonCommand → σ → σ
  | [], s => s
  | c :: cs, s => uiLoop handle cs (handle s c)

inductive UiEvent where
  | recvCmd (k : Nat)
  | beginHandle (k : Nat)
  | endHandle (k : Nat)
  deriving DecidableEq, Repr

/-- The event trace of the UI loop consuming `n` commands starting at
command index `k0`: each iteration receives a command, then begins and ends
its handler before the next receive. -/
def uiLoopTrace : Nat → Nat → List UiEvent
  | _, 0 => []
  | k, n + 1 =>
    UiEvent.recvCmd k :: UiEvent.beginHandle k :: UiEvent.endHandle k ::
      uiLoopTrace (k + 1) n

/-- C9: the UI loop's trace over any `n` commands is exactly the
concatenation of complete per-command blocks `recv k, begin k, end k` in
increasing command order: every handler run ends before the next command is
even received, so no two commands are ever applied concurrently, and every
state update happens through the sequential fold `uiLoop`. -/
theorem ui_loop_serialized (k0 n : Nat) {σ : Type} (handle : σ → DaemonCommand → σ)
    (c : DaemonCommand) (cs : List DaemonCommand) (s : σ) :
    uiLoopTrace k0 n =
      ((List.range' k0 n).map (fun k =>
        [UiEvent.recvCmd k, UiEvent.beginHandle k, UiEvent.endHandle k])).flatten ∧
    uiLoop handle (c :: cs) s = uiLoop handle cs (handle s c) := by
  constructor
  · induction n generalizing k0 with
    | zero => rfl
    | succ m ih => simp [uiLoopTrace, List.range', ih (k0 + 1)]
  · rfl

/-! ### Send failure terminates the watcher; the result reaches the join -/

/-- C10: when the command-queue receiver is closed, the first trigger that
finds the gate open makes the `?` on `evt_send.send` return an error from
`run_filewatch`, terminating the watcher task; that completed error value is
what the supervisor's `try_join!` sees for the watcher handle (inside its
`ok` triple, the handle itself not having failed).  A per-event error from
the notify source, in contrast, is only logged by the callback — it
forwards nothing to the loop and leaves the task running. -/
theorem send_failure_terminates_watcher (ts : List Nat) (t : Nat)
    (ipc : Except String Unit) :
    runLoop false (t :: ts) gateInit = Except.error SEND_ERR ∧
    try_join3 (JoinOutcome.completed (runLoop false (t :: ts) gateInit))
        (JoinOutcome.completed ipc) (JoinOutcome.completed ()) =
      Except.ok (Except.error SEND_ERR, ipc, ()) ∧
    (∀ e, watchCallback (Except.error e) true =
      [CbAction.logError ("Encountered Error While Watching Files: " ++ e)]) := by
  have h1 : runLoop false (t :: ts) gateInit = Except.error SEND_ERR := by
    simp [runLoop, filewatchStep, applyTimer, gateInit]
  refine ⟨h1, ?_, fun e => rfl⟩
  rw [h1]
  rfl

end Eww
